import Mathlib

/-!
Shallow embedding of the entity layer of the WikibaseIntegrator fork
(`wikibaseintegrator/entities/baseentity.py`) together with the claim-merge
policies and wire-JSON helpers it relies on.  Code present in the repository
snapshot is translated directly; collaborator classes that the snapshot only
calls (the `Claims` container, `FastRunContainer`) are modelled from the
specification and say so in their doc comments.
-/

set_option autoImplicit false

namespace WBI

/-- JSON values as Python's `simplejson` produces them: the wire format the
entity layer reads and writes.  Objects are ordered key/value lists, matching
Python dict insertion order. -/
inductive JValue where
  | null
  | bool (b : Bool)
  | num (n : Int)
  | str (s : String)
  | arr (xs : List JValue)
  | obj (fields : List (String × JValue))
deriving Repr

/-- Dictionary lookup `d[k]` on a JSON object; `none` models a `KeyError`
(or indexing a non-dict). -/
def jLookup : JValue → String → Option JValue
  | .obj fields, k => (fields.find? (fun p => p.1 == k)).map Prod.snd
  | _, _ => none

/-- Python `k in d` on a JSON object (`False` on non-dicts, which never carry
keys). -/
def hasKey (j : JValue) (k : String) : Bool :=
  (jLookup j k).isSome

/-- Python truthiness of a JSON value: `None`, `False`, `0`, `''`, `[]` and
`{}` are falsy, everything else truthy.  `baseentity.py` tests `not self.id`
and `if self.lastrevid:` with exactly these semantics. -/
def pyTruthy : JValue → Bool
  | .null => false
  | .bool b => b
  | .num n => n != 0
  | .str s => s ≠ ""
  | .arr xs => !xs.isEmpty
  | .obj fields => !fields.isEmpty

/-- Typed claim values.  Modelled from the spec: "a tagged variant over value
kinds (string, external id, URL, quantity with bounds and unit, time with
precision/calendar/timezone, coordinate with precision, ... item/property
reference)"; only the payloads matter to the merge policies, which compare
them for equality. -/
inductive DataValue where
  | string (s : String)
  | externalId (s : String)
  | url (s : String)
  | monolingual (text language : String)
  | quantity (amount : Int) (lowerBound upperBound : Option Int) (unit : String)
  | time (t : String) (before after precision timezone : Int)
  | coordinate (latitude longitude precision : Int)
  | itemRef (qid : String)
  | propertyRef (pid : String)
  | lexemeRef (lid : String)
deriving DecidableEq, Repr

/-- Wire-level property/value pair: the `mainsnak` of a claim. -/
structure Snak where
  property_number : String
  datavalue : DataValue
deriving DecidableEq, Repr

/-- Modelled from the spec: "Claim: property number, a typed value
('mainsnak'), ... optional server-assigned id, removal flag."  Qualifiers and
references are omitted: the spec states duplicate detection never considers
them, and no claim in scope inspects them. -/
structure Claim where
  mainsnak : Snak
  id : Option String := none
  removed : Bool := false
deriving DecidableEq, Repr

/-- Merge key used for duplicate detection: "same property number and same
underlying typed value payload (qualifiers/references not considered)". -/
def claimKey (c : Claim) : String × DataValue :=
  (c.mainsnak.property_number, c.mainsnak.datavalue)

/-- Boolean duplicate test between two claims. -/
def sameKeyb (a b : Claim) : Bool :=
  decide (claimKey a = claimKey b)

/-- Boolean same-property test (the grouping KEEP and REPLACE act on). -/
def samePropb (a b : Claim) : Bool :=
  a.mainsnak.property_number == b.mainsnak.property_number

/-- The four `if_exists` conflict-resolution policies of the claim container. -/
inductive ActionIfExists where
  | APPEND
  | FORCE_APPEND
  | KEEP
  | REPLACE
deriving DecidableEq, Repr

/-- Modelled from the spec: APPEND "add[s] incoming claims not already present
(same property and value) to the existing set; duplicates of an existing value
are silently dropped" — and, per the worked example, duplicates *within* the
incoming set collapse too, so each incoming claim is checked against the
collection as built so far. -/
def claimsAppend : List Claim → List Claim → List Claim
  | acc, [] => acc
  | acc, c :: rest =>
    if acc.any (fun x => sameKeyb x c) then claimsAppend acc rest
    else claimsAppend (acc ++ [c]) rest

/-- Modelled from the spec: `Claims.add` — "given an existing ordered claim
collection and a set of incoming claims, apply one of four policies": APPEND
(dedup on merge key), FORCE_APPEND ("add all incoming claims unconditionally,
even exact duplicates"), KEEP ("if any existing claim already exists for the
target property ... discard all incoming claims for that property; otherwise
add them"), REPLACE ("mark every existing claim for that property as removed
... and add all incoming claims as new").  The keyed-by-property container is
represented as a flat ordered list; per-property grouping is recovered by
filtering on the property number. -/
def claimsAdd (existing incoming : List Claim) : ActionIfExists → List Claim
  | .APPEND => claimsAppend existing incoming
  | .FORCE_APPEND => existing ++ incoming
  | .KEEP => existing ++ incoming.filter (fun c => !existing.any (fun x => samePropb x c))
  | .REPLACE =>
      existing.map (fun x => if incoming.any (fun c => samePropb x c) then { x with removed := true } else x)
        ++ incoming

/-- Number of distinct (property number, typed value payload) pairs in a
collection — the "total distinct-value count" of the spec. -/
def distinctValueCount (cs : List Claim) : Nat :=
  (cs.map claimKey).toFinset.card

/-- Modelled from the spec: the "datavalue" wire shape each typed value kind
serializes to (only the tag and payload fields matter here; no claim in scope
inspects the inner shape). -/
def dataValueJson : DataValue → JValue
  | .string s => .obj [("type", .str "string"), ("value", .str s)]
  | .externalId s => .obj [("type", .str "external-id"), ("value", .str s)]
  | .url s => .obj [("type", .str "url"), ("value", .str s)]
  | .monolingual t l => .obj [("type", .str "monolingualtext"), ("text", .str t), ("language", .str l)]
  | .quantity a lo hi u =>
      .obj [("type", .str "quantity"), ("amount", .num a),
            ("lowerBound", match lo with | some n => .num n | none => .null),
            ("upperBound", match hi with | some n => .num n | none => .null),
            ("unit", .str u)]
  | .time t b a p tz =>
      .obj [("type", .str "time"), ("time", .str t), ("before", .num b), ("after", .num a),
            ("precision", .num p), ("timezone", .num tz)]
  | .coordinate la lo pr =>
      .obj [("type", .str "globecoordinate"), ("latitude", .num la), ("longitude", .num lo),
            ("precision", .num pr)]
  | .itemRef q => .obj [("type", .str "wikibase-entityid"), ("id", .str q)]
  | .propertyRef p => .obj [("type", .str "wikibase-propertyid"), ("id", .str p)]
  | .lexemeRef l => .obj [("type", .str "wikibase-lexemeid"), ("id", .str l)]

/-- Modelled from the spec: parse one datavalue wire object back into a typed
value (inverse of `dataValueJson`). -/
def dataValueFromJson (v : JValue) : Option DataValue :=
  match jLookup v "type" with
  | some (.str "string") =>
      match jLookup v "value" with | some (.str s) => some (.string s) | _ => none
  | some (.str "external-id") =>
      match jLookup v "value" with | some (.str s) => some (.externalId s) | _ => none
  | some (.str "url") =>
      match jLookup v "value" with | some (.str s) => some (.url s) | _ => none
  | some (.str "monolingualtext") =>
      match jLookup v "text", jLookup v "language" with
      | some (.str t), some (.str l) => some (.monolingual t l)
      | _, _ => none
  | some (.str "quantity") =>
      match jLookup v "amount", jLookup v "unit" with
      | some (.num a), some (.str u) =>
          let lo := match jLookup v "lowerBound" with | some (.num n) => some n | _ => none
          let hi := match jLookup v "upperBound" with | some (.num n) => some n | _ => none
          some (.quantity a lo hi u)
      | _, _ => none
  | some (.str "time") =>
      match jLookup v "time", jLookup v "before", jLookup v "after",
            jLookup v "precision", jLookup v "timezone" with
      | some (.str t), some (.num b), some (.num a), some (.num p), some (.num tz) =>
          some (.time t b a p tz)
      | _, _, _, _, _ => none
  | some (.str "globecoordinate") =>
      match jLookup v "latitude", jLookup v "longitude", jLookup v "precision" with
      | some (.num la), some (.num lo), some (.num pr) => some (.coordinate la lo pr)
      | _, _, _ => none
  | some (.str "wikibase-entityid") =>
      match jLookup v "id" with | some (.str q) => some (.itemRef q) | _ => none
  | some (.str "wikibase-propertyid") =>
      match jLookup v "id" with | some (.str p) => some (.propertyRef p) | _ => none
  | some (.str "wikibase-lexemeid") =>
      match jLookup v "id" with | some (.str l) => some (.lexemeRef l) | _ => none
  | _ => none

/-- Wire form of a mainsnak. -/
def snakJson (s : Snak) : JValue :=
  .obj [("property", .str s.property_number), ("datavalue", dataValueJson s.datavalue)]

/-- Parse a snak wire object. -/
def snakFromJson (v : JValue) : Option Snak :=
  match jLookup v "property", (jLookup v "datavalue").bind dataValueFromJson with
  | some (.str p), some dv => some ⟨p, dv⟩
  | _, _ => none

/-- Modelled from the spec: one claim's wire object — "a claim with a
server-assigned id that is marked for removal serializes as a deletion
instruction instead of a value". -/
def claimJson (c : Claim) : JValue :=
  match c.id with
  | some cid =>
      if c.removed then .obj [("id", .str cid), ("remove", .str "")]
      else .obj [("mainsnak", snakJson c.mainsnak), ("id", .str cid)]
  | none => .obj [("mainsnak", snakJson c.mainsnak)]

/-- Parse one claim wire object (read path: no removal markers come back from
the server, so `removed` starts out false). -/
def claimFromJson (v : JValue) : Option Claim :=
  ((jLookup v "mainsnak").bind snakFromJson).map (fun s =>
    { mainsnak := s,
      id := match jLookup v "id" with | some (.str i) => some i | _ => none,
      removed := false })

/-- Modelled from the spec: `Claims.get_json` — "Claims are keyed by property
number, each entry is a list of snak objects". -/
def claimsGetJson (cs : List Claim) : JValue :=
  .obj (((cs.map (fun c => c.mainsnak.property_number)).dedup).map (fun p =>
    (p, .arr ((cs.filter (fun c => c.mainsnak.property_number == p)).map claimJson))))

/-- Parse the per-property groups of a claims wire object. -/
def claimsGroupFromJson : List (String × JValue) → Option (List Claim)
  | [] => some []
  | (_, v) :: rest =>
      match v with
      | .arr entries => do
          let cs ← entries.mapM claimFromJson
          let csr ← claimsGroupFromJson rest
          pure (cs ++ csr)
      | _ => none

/-- Modelled from the spec: `Claims().from_json` — parse a claims wire object
(property-keyed lists of claim objects) into the flat ordered collection. -/
def claimsFromJson : JValue → Option (List Claim)
  | .obj fields => claimsGroupFromJson fields
  | _ => none

/-- Modelled from the spec: "Fast-run cache entry: filter signature
(property-based predicate), flag for whether references are compared,
case-sensitivity flag, ... and the resolved entity id for the most recent
lookup."  The `base_data_type` attribute is the constant class object
`BaseDataType`, assigned identically on both the reuse and the creation path
of `init_fastrun`, so it carries no information and is omitted.  The filter
signature is a property-number-keyed dict, embedded as an ordered
key/value list. -/
structure FastRunContainer where
  base_filter : List (String × String)
  use_refs : Bool
  case_insensitive : Bool
  sparql_endpoint_url : String
  current_qid : String := ""
deriving DecidableEq, Repr

/-- Python exceptions the entity layer raises, one constructor per kind.
`mwApiError` and `nonUniqueLabelDescriptionPairError` carry the raw server
payload exactly as the source constructs them. -/
inductive PyError where
  | typeError
  | valueError (msg : String)
  | keyError (key : String)
  | attributeError
  | mwApiError (payload : JValue)
  | nonUniqueLabelDescriptionPairError (payload : JValue)
  | apiException (msg : String)
deriving Repr

/-- The mutable fields of `BaseEntity` (`__init__`, lines 17-29).  `lastrevid`,
`type` and `id` hold whatever JSON value the wire hands back, as in Python;
the `api` handle and the `debug` flag only feed printing and the external
helper call, so they live as explicit arguments of the operations that use
them. -/
structure BaseEntity where
  lastrevid : JValue := .null
  type : JValue := .str "base-entity"
  id : JValue := .null
  claims : List Claim := []
  json : JValue := .obj []
  fast_run_container : Option FastRunContainer := none
deriving Repr

/-- Python `self.type == 'mediainfo'`. -/
def isMediainfo : JValue → Bool
  | .str s => s == "mediainfo"
  | _ => false

/-- The dynamically-typed argument `add_claims` receives: a single claim, a
list of claims, or some other Python value (string, number, None). -/
inductive PyVal where
  | claimV (c : Claim)
  | listV (cs : List Claim)
  | strV (s : String)
  | numV (n : Int)
  | noneV
deriving Repr

/-- `BaseEntity.add_claims` (lines 31-39).  The second component records the
MediaWiki API actions the method performs (it performs none: the method is
pure local mutation); the third is the exception raised, if any.  A lone
`Claim` is wrapped in a list; any argument that is neither a `Claim` nor a
list raises `TypeError` before the claim collection is touched. -/
def add_claims (e : BaseEntity) (arg : PyVal) (action_if_exists : ActionIfExists) :
    BaseEntity × List String × Option PyError :=
  match arg with
  | .claimV c => ({ e with claims := claimsAdd e.claims [c] action_if_exists }, [], none)
  | .listV cs => ({ e with claims := claimsAdd e.claims cs action_if_exists }, [], none)
  | _ => (e, [], some .typeError)

/-- `BaseEntity.get_json` (lines 41-52): build `{type, id, claims}`, for
mediainfo rename `claims` to `statements` (`pop` + reinsert appends the key at
the end, per dict order), and delete `id` when `not self.id`. -/
def get_json (e : BaseEntity) : JValue :=
  let json_data : List (String × JValue) :=
    [("type", e.type), ("id", e.id), ("claims", claimsGetJson e.claims)]
  let renamed :=
    if isMediainfo e.type then
      json_data.filter (fun p => !(p.1 == "claims")) ++ [("statements", claimsGetJson e.claims)]
    else json_data
  let final := if pyTruthy e.id then renamed else renamed.filter (fun p => !(p.1 == "id"))
  .obj final

/-- `BaseEntity.from_json` (lines 54-66).  Returns the post-state together
with the exception raised, if any: Python assignments made before a raise
persist, so `self.json` is set first, a `missing` marker raises
`ValueError('Entity is nonexistent')`, and the remaining fields are populated
from the input (a `none` lookup models the `KeyError` of `json_data[k]`).
For mediainfo the claims live under `statements`. -/
def from_json (e : BaseEntity) (json_data : JValue) : BaseEntity × Option PyError :=
  let e0 := { e with json := json_data }
  if hasKey json_data "missing" then
    (e0, some (.valueError "Entity is nonexistent"))
  else
    match jLookup json_data "lastrevid" with
    | none => (e0, some (.keyError "lastrevid"))
    | some lr =>
      let e1 := { e0 with lastrevid := lr }
      match jLookup json_data "type" with
      | none => (e1, some (.keyError "type"))
      | some ty =>
        let e2 := { e1 with type := ty }
        match jLookup json_data "id" with
        | none => (e2, some (.keyError "id"))
        | some eid =>
          let e3 := { e2 with id := eid }
          let claimsKey := if isMediainfo ty then "statements" else "claims"
          match jLookup json_data claimsKey with
          | none => (e3, some (.keyError claimsKey))
          | some cj =>
            match claimsFromJson cj with
            | none => (e3, some (.valueError "invalid claims payload"))
            | some cs => ({ e3 with claims := cs }, none)

/-- The `wbeditentity` request payload `_write` assembles (lines 112-136):
action/data/format/summary with a falsy summary popped again, a `bot` marker
for bot accounts, a `clear` flag on request, `id` when the entity is bound and
`new` with the entity type otherwise, and `baserevid` when a revision marker
is held. -/
def writePayload (e : BaseEntity) (data : String) (summary : JValue) (is_bot clear : Bool) :
    JValue :=
  let p0 : List (String × JValue) :=
    [("action", .str "wbeditentity"), ("data", .str data), ("format", .str "json"),
     ("summary", summary)]
  let p1 := if pyTruthy summary then p0 else p0.filter (fun q => !(q.1 == "summary"))
  let p2 := if is_bot then p1 ++ [("bot", .str "")] else p1
  let p3 := if clear then p2 ++ [("clear", .bool true)] else p2
  let p4 := if pyTruthy e.id then p3 ++ [("id", e.id)] else p3 ++ [("new", e.type)]
  let p5 := if pyTruthy e.lastrevid then p4 ++ [("baserevid", e.lastrevid)] else p4
  .obj p5

/-- The message name `_write` singles out in an error envelope. -/
def conflictMessageName : String :=
  "wikibase-validator-label-with-description-conflict"

/-- Response handling of `BaseEntity._write` (lines 141-161).  The external
`mediawiki_api_call_helper` either raises (`resp = .error`) or returns parsed
JSON (`resp = .ok`); the `except` clause prints and re-raises, so a helper
exception propagates with the entity untouched.  A returned envelope holding
`error` with a `messages` list is inspected for the label/description
conflict name (`x.get('name')`, with dict membership for Python's `in` and
`attributeError` when a message entry is not a dict); any other envelope
raises `MWApiError` with the raw payload.  Only after these checks does the
source assign `self.id` from `json_data['entity']['id']` (a missing key
raises `KeyError` before any assignment) and, when `success`, `entity` and a
`lastrevid` are all present, `self.lastrevid`; it returns
`json_data['entity']`. -/
def writeStep (e : BaseEntity) (resp : Except String JValue) :
    BaseEntity × Except PyError JValue :=
  match resp with
  | .error m => (e, .error (.apiException m))
  | .ok json_data =>
    match jLookup json_data "error" with
    | some errv =>
      if hasKey errv "messages" then
        match jLookup errv "messages" with
        | some (.arr messages) =>
          if messages.all (fun m => match m with | .obj _ => true | _ => false) then
            let error_msg_names := messages.map (fun m => jLookup m "name")
            if error_msg_names.any
                (fun n => match n with | some (.str s) => s == conflictMessageName | _ => false) then
              (e, .error (.nonUniqueLabelDescriptionPairError json_data))
            else
              (e, .error (.mwApiError json_data))
          else (e, .error .attributeError)
        | _ => (e, .error .attributeError)
      else (e, .error (.mwApiError json_data))
    | none =>
      match jLookup json_data "entity" with
      | none => (e, .error (.keyError "entity"))
      | some entityJson =>
        match jLookup entityJson "id" with
        | none => (e, .error (.keyError "id"))
        | some newId =>
          let e1 := { e with id := newId }
          let e2 :=
            if hasKey json_data "success" && hasKey json_data "entity"
                && hasKey entityJson "lastrevid" then
              match jLookup entityJson "lastrevid" with
              | some lr => { e1 with lastrevid := lr }
              | none => e1
            else e1
          (e2, .ok entityJson)

/-- Structural-equality test of the reuse loop in `init_fastrun` (lines
170-172): same base filter, reference flag, case flag and SPARQL endpoint. -/
def frMatches (c : FastRunContainer) (base_filter : List (String × String))
    (use_refs case_insensitive : Bool) (endpoint : String) : Bool :=
  c.base_filter == base_filter && c.use_refs == use_refs
    && c.case_insensitive == case_insensitive && c.sparql_endpoint_url == endpoint

/-- Effect of the reuse loop on the store (lines 170-175): every matching
container has its `current_qid` reset in place, the rest are untouched. -/
def resetMatching (store : List FastRunContainer) (base_filter : List (String × String))
    (use_refs case_insensitive : Bool) (endpoint : String) : List FastRunContainer :=
  store.map (fun c =>
    if frMatches c base_filter use_refs case_insensitive endpoint then { c with current_qid := "" }
    else c)

/-- The container the reuse loop leaves on the entity: the loop assigns every
match in turn without breaking, so the last matching store entry wins. -/
def lastMatch (store : List FastRunContainer) (base_filter : List (String × String))
    (use_refs case_insensitive : Bool) (endpoint : String) : Option FastRunContainer :=
  ((resetMatching store base_filter use_refs case_insensitive endpoint).filter
    (fun c => frMatches c base_filter use_refs case_insensitive endpoint)).getLast?

/-- The container `FastRunContainer(base_filter=…, use_refs=…, …)` the
creation branch builds; its endpoint comes from the same configuration entry
the loop compares against. -/
def newFastRun (base_filter : List (String × String)) (use_refs case_insensitive : Bool)
    (endpoint : String) : FastRunContainer :=
  { base_filter := base_filter, use_refs := use_refs, case_insensitive := case_insensitive,
    sparql_endpoint_url := endpoint, current_qid := "" }

/-- `BaseEntity.init_fastrun` (lines 163-186), with the class-level
`fast_run_store` passed in and out explicitly.  A `None` filter becomes `{}`.
The loop visits every stored container; each match is adopted in turn with
its `current_qid` reset in place (the store entry and the adopted container
are the same mutable object), so the last match wins.  Afterwards the source
tests `if not self.fast_run_container:` — the field on the entity, which may
still hold a container from an earlier call — and only when that is `None`
does it create a container with the requested parameters and append it to the
store. -/
def init_fastrun (store : List FastRunContainer) (e : BaseEntity)
    (base_filter : Option (List (String × String))) (use_refs case_insensitive : Bool)
    (endpoint : String) : List FastRunContainer × BaseEntity :=
  let bf := base_filter.getD []
  let store1 := resetMatching store bf use_refs case_insensitive endpoint
  let frc := match lastMatch store bf use_refs case_insensitive endpoint with
    | some c => some c
    | none => e.fast_run_container
  match frc with
  | some c => (store1, { e with fast_run_container := some c })
  | none =>
    (store1 ++ [newFastRun bf use_refs case_insensitive endpoint],
     { e with fast_run_container := some (newFastRun bf use_refs case_insensitive endpoint) })

/-- `BaseEntity.write_required` (lines 194-205): initialize the fast-run
container, restrict the entity's claims to those whose mainsnak property
number is a key of the base filter, and call the container's
`write_required` with that list as `data` and the entity id as `cqid`.  The
container method lives outside the snapshot, so the embedding exposes the
call: the second component is exactly the `(data, cqid)` argument pair the
source passes. -/
def write_required (store : List FastRunContainer) (e : BaseEntity)
    (base_filter : Option (List (String × String))) (use_refs case_insensitive : Bool)
    (endpoint : String) :
    (List FastRunContainer × BaseEntity) × (List Claim × JValue) :=
  let res := init_fastrun store e base_filter use_refs case_insensitive endpoint
  let bf := base_filter.getD []
  let claims_to_check := res.2.claims.filter (fun claim =>
    (bf.map Prod.fst).contains claim.mainsnak.property_number)
  (res, (claims_to_check, res.2.id))

/-! Sample data reused by the witness theorems. -/

/-- A `P31 → Q1234` claim, as in the `test_basedatatype_if_exists` test. -/
def sampleClaimQ1234 : Claim :=
  { mainsnak := { property_number := "P31", datavalue := .itemRef "Q1234" } }

/-- A distinct `P31 → Q5` claim already on the entity. -/
def sampleClaimQ5 : Claim :=
  { mainsnak := { property_number := "P31", datavalue := .itemRef "Q5" } }

/-- A bound entity with one claim. -/
def sampleEntity : BaseEntity := { id := .str "Q2", claims := [sampleClaimQ5] }

/-- A mediainfo entity used by the C5 witness. -/
def sampleMediaEntity : BaseEntity := { type := .str "mediainfo", id := .str "M1" }

/-- An error envelope carrying the label/description conflict message. -/
def sampleConflictEnvelope : JValue :=
  .obj [("error", .obj [("messages", .arr [.obj [("name", .str conflictMessageName)]])])]

/-- A `wbgetentities` payload for a nonexistent entity. -/
def sampleMissingResponse : JValue := .obj [("missing", .str "")]

/-- C8's claim as stated, as a predicate on one `init_fastrun` call: the
entity ends up holding a structurally matching store entry exactly when one
exists, and otherwise a newly created container with the requested parameters
is appended to the store. -/
def initFastrunClaimStatement (store : List FastRunContainer) (e : BaseEntity)
    (base_filter : Option (List (String × String))) (use_refs case_insensitive : Bool)
    (endpoint : String) : Prop :=
  ((∃ c ∈ store, frMatches c (base_filter.getD []) use_refs case_insensitive endpoint = true) →
      ∃ c, (init_fastrun store e base_filter use_refs case_insensitive endpoint).2.fast_run_container
              = some c ∧
        c ∈ (init_fastrun store e base_filter use_refs case_insensitive endpoint).1 ∧
        frMatches c (base_filter.getD []) use_refs case_insensitive endpoint = true) ∧
  (¬ (∃ c ∈ store, frMatches c (base_filter.getD []) use_refs case_insensitive endpoint = true) →
      (init_fastrun store e base_filter use_refs case_insensitive endpoint).1
          = store ++ [newFastRun (base_filter.getD []) use_refs case_insensitive endpoint] ∧
      (init_fastrun store e base_filter use_refs case_insensitive endpoint).2.fast_run_container
          = some (newFastRun (base_filter.getD []) use_refs case_insensitive endpoint))

/-- A stored fast-run container for a `P31` filter. -/
def frP31Container : FastRunContainer :=
  { base_filter := [("P31", "")], use_refs := false, case_insensitive := false,
    sparql_endpoint_url := "https://query.example.org/sparql", current_qid := "" }

/-- An entity that already went through `init_fastrun` with the `P31` filter:
its container is the stored one. -/
def staleEntity : BaseEntity := { fast_run_container := some frP31Container }

/-! Helper lemmas. -/

theorem claimsAppend_suffix (incoming : List Claim) :
    ∀ acc : List Claim, ∃ t, claimsAppend acc incoming = acc ++ t ∧
      ∀ c ∈ t, ∀ x ∈ acc, sameKeyb x c = false := by
  induction incoming with
  | nil => exact fun acc => ⟨[], by simp [claimsAppend]⟩
  | cons c rest ih =>
    intro acc
    by_cases h : acc.any (fun x => sameKeyb x c) = true
    · obtain ⟨t, ht, hn⟩ := ih acc
      exact ⟨t, by simpa [claimsAppend, h] using ht, hn⟩
    · obtain ⟨t, ht, hn⟩ := ih (acc ++ [c])
      have hfalse : ∀ x ∈ acc, sameKeyb x c = false := by
        intro x hx
        simp only [List.any_eq_true, not_exists, not_and] at h
        simpa using h x hx
      refine ⟨c :: t, ?_, ?_⟩
      · rw [claimsAppend, if_neg h, ht]
        simp
      · intro y hy x hx
        rcases List.mem_cons.mp hy with rfl | hyt
        · exact hfalse x hx
        · exact hn y hyt x (List.mem_append_left _ hx)

theorem sameKeyb_false_iff (a b : Claim) : sameKeyb a b = false ↔ claimKey a ≠ claimKey b := by
  simp [sameKeyb]

/-! Claim theorems. -/

/-- C1: APPEND never decreases the total distinct-value count, never adds a
claim whose (property number, typed value payload) merge key already occurs
in the existing collection, and applying APPEND twice with the same claim
yields the same collection as applying it once. -/
theorem append_policy_spec (existing incoming : List Claim) (c : Claim) :
    distinctValueCount existing ≤ distinctValueCount (claimsAdd existing incoming .APPEND) ∧
    (∀ x ∈ claimsAdd existing incoming .APPEND,
        x ∈ existing ∨ ∀ y ∈ existing, claimKey y ≠ claimKey x) ∧
    claimsAdd (claimsAdd existing [c] .APPEND) [c] .APPEND = claimsAdd existing [c] .APPEND := by
  obtain ⟨t, ht, hn⟩ := claimsAppend_suffix incoming existing
  refine ⟨?_, ?_, ?_⟩
  · simp only [claimsAdd, ht, distinctValueCount, List.map_append, List.toFinset_append]
    exact Finset.card_le_card Finset.subset_union_left
  · intro x hx
    simp only [claimsAdd, ht] at hx
    rcases List.mem_append.mp hx with h1 | h2
    · exact Or.inl h1
    · exact Or.inr fun y hy => (sameKeyb_false_iff y x).mp (hn x h2 y hy)
  · by_cases h : existing.any (fun x => sameKeyb x c) = true
    · simp [claimsAdd, claimsAppend, h]
    · have hcc : sameKeyb c c = true := by simp [sameKeyb]
      simp [claimsAdd, claimsAppend, h, List.any_append, hcc]

/-- Witness for C1 at the spec's worked example: one existing `P31 → Q5`
claim, incoming duplicates of `P31 → Q1234`. -/
theorem append_policy_spec_witness :
    distinctValueCount [sampleClaimQ5] ≤
        distinctValueCount (claimsAdd [sampleClaimQ5] [sampleClaimQ1234, sampleClaimQ1234] .APPEND) ∧
    claimsAdd (claimsAdd [sampleClaimQ5] [sampleClaimQ1234] .APPEND) [sampleClaimQ1234] .APPEND
      = claimsAdd [sampleClaimQ5] [sampleClaimQ1234] .APPEND :=
  ⟨(append_policy_spec [sampleClaimQ5] [sampleClaimQ1234, sampleClaimQ1234] sampleClaimQ1234).1,
   (append_policy_spec [sampleClaimQ5] [sampleClaimQ1234] sampleClaimQ1234).2.2⟩

/-- C2: FORCE_APPEND increases the number of claims by exactly the size of
the incoming set, duplicates or not. -/
theorem force_append_count (existing incoming : List Claim) :
    (claimsAdd existing incoming .FORCE_APPEND).length = existing.length + incoming.length := by
  simp [claimsAdd]

/-- C3: an argument that is neither a `Claim` nor a list makes `add_claims`
raise `TypeError` with the entity unchanged and no MediaWiki API action
performed. -/
theorem add_claims_typeerror (e : BaseEntity) (arg : PyVal) (pol : ActionIfExists)
    (h1 : ∀ c, arg ≠ .claimV c) (h2 : ∀ cs, arg ≠ .listV cs) :
    add_claims e arg pol = (e, [], some .typeError) := by
  cases arg with
  | claimV c => exact absurd rfl (h1 c)
  | listV cs => exact absurd rfl (h2 cs)
  | strV s => rfl
  | numV n => rfl
  | noneV => rfl

/-- Witness for C3: the test's `add_claims('test')` call. -/
theorem add_claims_typeerror_witness :
    add_claims sampleEntity (.strV "test") .APPEND = (sampleEntity, [], some .typeError) :=
  add_claims_typeerror sampleEntity (.strV "test") .APPEND
    (fun _ h => nomatch h) (fun _ h => nomatch h)

/-- C4: a failed `_write` — the API helper raised or the response carried an
error envelope (or any other exception) — leaves `id` and `lastrevid`
untouched; a successful write takes the new `id` (and, when present, the new
`lastrevid`) from the response's `entity` object. -/
theorem write_failure_preserves (e : BaseEntity) (resp : Except String JValue)
    (e' : BaseEntity) (r : Except PyError JValue) (hw : writeStep e resp = (e', r)) :
    (∀ err, r = .error err → e'.id = e.id ∧ e'.lastrevid = e.lastrevid) ∧
    (∀ v, r = .ok v → jLookup v "id" = some e'.id ∧
      (e'.lastrevid = e.lastrevid ∨ jLookup v "lastrevid" = some e'.lastrevid)) := by
  unfold writeStep at hw
  rcases resp with m | j
  · cases hw
    exact ⟨fun err _ => ⟨rfl, rfl⟩, fun v hv => nomatch hv⟩
  · dsimp only at hw
    cases hje : jLookup j "error" with
    | some errv =>
      rw [hje] at hw; dsimp only at hw
      by_cases hm : hasKey errv "messages" = true
      · rw [if_pos hm] at hw
        cases hjm : jLookup errv "messages" with
        | some mv =>
          rw [hjm] at hw
          cases mv with
          | arr messages =>
            dsimp only at hw
            by_cases hall : messages.all (fun m => match m with | .obj _ => true | _ => false) = true
            · rw [if_pos hall] at hw
              by_cases hc : (messages.map (fun m => jLookup m "name")).any
                  (fun n => match n with | some (.str s) => s == conflictMessageName | _ => false) = true
              · rw [if_pos hc] at hw
                cases hw
                exact ⟨fun err _ => ⟨rfl, rfl⟩, fun v hv => nomatch hv⟩
              · rw [if_neg hc] at hw
                cases hw
                exact ⟨fun err _ => ⟨rfl, rfl⟩, fun v hv => nomatch hv⟩
            · rw [if_neg hall] at hw
              cases hw
              exact ⟨fun err _ => ⟨rfl, rfl⟩, fun v hv => nomatch hv⟩
          | null => cases hw; exact ⟨fun err _ => ⟨rfl, rfl⟩, fun v hv => nomatch hv⟩
          | bool b => cases hw; exact ⟨fun err _ => ⟨rfl, rfl⟩, fun v hv => nomatch hv⟩
          | num n => cases hw; exact ⟨fun err _ => ⟨rfl, rfl⟩, fun v hv => nomatch hv⟩
          | str s => cases hw; exact ⟨fun err _ => ⟨rfl, rfl⟩, fun v hv => nomatch hv⟩
          | obj fs => cases hw; exact ⟨fun err _ => ⟨rfl, rfl⟩, fun v hv => nomatch hv⟩
        | none =>
          rw [hjm] at hw; dsimp only at hw
          cases hw
          exact ⟨fun err _ => ⟨rfl, rfl⟩, fun v hv => nomatch hv⟩
      · rw [if_neg hm] at hw
        cases hw
        exact ⟨fun err _ => ⟨rfl, rfl⟩, fun v hv => nomatch hv⟩
    | none =>
      rw [hje] at hw; dsimp only at hw
      cases hent : jLookup j "entity" with
      | none =>
        rw [hent] at hw; dsimp only at hw
        cases hw
        exact ⟨fun err _ => ⟨rfl, rfl⟩, fun v hv => nomatch hv⟩
      | some entityJson =>
        rw [hent] at hw; dsimp only at hw
        cases hid : jLookup entityJson "id" with
        | none =>
          rw [hid] at hw; dsimp only at hw
          cases hw
          exact ⟨fun err _ => ⟨rfl, rfl⟩, fun v hv => nomatch hv⟩
        | some newId =>
          rw [hid] at hw; dsimp only at hw
          by_cases hs : (hasKey j "success" && hasKey j "entity" && hasKey entityJson "lastrevid") = true
          · rw [if_pos hs] at hw
            cases hlr : jLookup entityJson "lastrevid" with
            | none =>
              rw [hlr] at hw
              cases hw
              exact ⟨fun err herr => (nomatch herr),
                fun v hv => by cases hv; exact ⟨hid, Or.inl rfl⟩⟩
            | some lr =>
              rw [hlr] at hw
              cases hw
              exact ⟨fun err herr => (nomatch herr),
                fun v hv => by cases hv; exact ⟨hid, Or.inr hlr⟩⟩
          · rw [if_neg hs] at hw
            cases hw
            exact ⟨fun err herr => (nomatch herr),
              fun v hv => by cases hv; exact ⟨hid, Or.inl rfl⟩⟩

/-- C5: `get_json` emits the entity's type, its claims, and its id exactly
when the id attribute is set to a truthy value (Python's `not self.id`); for
mediainfo entities the claims sit under `statements` and no `claims` key is
present, for every other type under `claims` with no `statements` key. -/
theorem get_json_spec (e : BaseEntity) :
    jLookup (get_json e) "type" = some e.type ∧
    hasKey (get_json e) "id" = pyTruthy e.id ∧
    (isMediainfo e.type = true →
       jLookup (get_json e) "statements" = some (claimsGetJson e.claims) ∧
       jLookup (get_json e) "claims" = none) ∧
    (isMediainfo e.type = false →
       jLookup (get_json e) "claims" = some (claimsGetJson e.claims) ∧
       jLookup (get_json e) "statements" = none) := by
  by_cases hm : isMediainfo e.type = true
  · by_cases hid : pyTruthy e.id = true
    · simp [get_json, hm, hid, jLookup, hasKey, List.find?, List.filter]
    · simp [get_json, hm, hid, jLookup, hasKey, List.find?, List.filter,
        Bool.eq_false_iff.mpr hid]
  · rw [Bool.not_eq_true] at hm
    by_cases hid : pyTruthy e.id = true
    · simp [get_json, hm, hid, jLookup, hasKey, List.find?, List.filter]
    · simp [get_json, hm, hid, jLookup, hasKey, List.find?, List.filter,
        Bool.eq_false_iff.mpr hid]


/-- Witness for C5 at a concrete mediainfo entity. -/
theorem get_json_spec_witness :
    jLookup (get_json sampleMediaEntity) "statements"
        = some (claimsGetJson sampleMediaEntity.claims) ∧
    jLookup (get_json sampleMediaEntity) "claims" = none ∧
    hasKey (get_json sampleMediaEntity) "id" = pyTruthy sampleMediaEntity.id :=
  ⟨((get_json_spec sampleMediaEntity).2.2.1 rfl).1,
   ((get_json_spec sampleMediaEntity).2.2.1 rfl).2,
   (get_json_spec sampleMediaEntity).2.1⟩

/-- C6: a write response whose `error` member carries a `messages` list makes
`_write` raise `NonUniqueLabelDescriptionPairError` with the raw payload when
the conflict message name occurs, and `MWApiError` with the raw payload
otherwise; the error is returned, never swallowed, and the single helper
response is consumed exactly once (no retry). -/
theorem write_error_envelope_spec (e : BaseEntity) (json_data errv : JValue)
    (messages : List JValue)
    (h1 : jLookup json_data "error" = some errv)
    (h2 : jLookup errv "messages" = some (.arr messages))
    (h3 : ∀ m ∈ messages, ∃ fs, m = .obj fs) :
    writeStep e (.ok json_data) =
      (e, .error
        (if (messages.map (fun m => jLookup m "name")).any
              (fun n => match n with | some (.str s) => s == conflictMessageName | _ => false) then
          .nonUniqueLabelDescriptionPairError json_data
        else .mwApiError json_data)) := by
  have hall : messages.all (fun m => match m with | .obj _ => true | _ => false) = true := by
    rw [List.all_eq_true]
    intro m hm
    obtain ⟨fs, rfl⟩ := h3 m hm
    rfl
  have hk : hasKey errv "messages" = true := by
    unfold hasKey
    rw [h2]
    rfl
  unfold writeStep
  dsimp only
  rw [h1]
  dsimp only
  rw [if_pos hk, h2]
  dsimp only
  rw [if_pos hall]
  by_cases hc : (messages.map (fun m => jLookup m "name")).any
      (fun n => match n with | some (.str s) => s == conflictMessageName | _ => false) = true
  · simp only [if_pos hc]
  · simp only [if_neg hc]


/-- Witness for C6 at a concrete conflict envelope. -/
theorem write_error_envelope_witness :
    writeStep sampleEntity (.ok sampleConflictEnvelope) =
      (sampleEntity, .error (.nonUniqueLabelDescriptionPairError sampleConflictEnvelope)) := by
  have h := write_error_envelope_spec sampleEntity sampleConflictEnvelope
      (.obj [("messages", .arr [.obj [("name", .str conflictMessageName)]])])
      [.obj [("name", .str conflictMessageName)]]
      rfl rfl (by intro m hm; rw [List.mem_singleton] at hm; exact ⟨_, hm⟩)
  rw [h]
  rfl

/-- C7: a read payload with a `missing` key makes `from_json` raise the
entity-not-found condition (`ValueError`, a different exception kind from the
generic `MWApiError`) and leaves `lastrevid`, `type`, `id` and `claims`
unpopulated. -/
theorem from_json_missing_spec (e : BaseEntity) (json_data : JValue)
    (h : hasKey json_data "missing" = true) :
    (from_json e json_data).2 = some (.valueError "Entity is nonexistent") ∧
    (∀ payload, (PyError.valueError "Entity is nonexistent") ≠ PyError.mwApiError payload) ∧
    (from_json e json_data).1.lastrevid = e.lastrevid ∧
    (from_json e json_data).1.type = e.type ∧
    (from_json e json_data).1.id = e.id ∧
    (from_json e json_data).1.claims = e.claims := by
  unfold from_json
  rw [if_pos h]
  exact ⟨rfl, fun payload hp => (nomatch hp), rfl, rfl, rfl, rfl⟩


/-- Witness for C7 at a concrete missing-marker payload. -/
theorem from_json_missing_spec_witness :
    (from_json sampleEntity sampleMissingResponse).2
        = some (.valueError "Entity is nonexistent") ∧
    (from_json sampleEntity sampleMissingResponse).1.id = sampleEntity.id :=
  ⟨(from_json_missing_spec sampleEntity sampleMissingResponse rfl).1,
   (from_json_missing_spec sampleEntity sampleMissingResponse rfl).2.2.2.2.1⟩

/-- C10: on a `missing` payload `from_json` stores the raw input in the
entity's `json` field before raising, and that is its only mutation. -/
theorem from_json_missing_frame (e : BaseEntity) (json_data : JValue)
    (h : hasKey json_data "missing" = true) :
    (from_json e json_data).1 = { e with json := json_data } ∧
    (from_json e json_data).2 = some (.valueError "Entity is nonexistent") := by
  unfold from_json
  rw [if_pos h]
  exact ⟨rfl, rfl⟩

/-- Witness for C10 at a concrete missing-marker payload on a fresh entity. -/
theorem from_json_missing_frame_witness :
    (from_json ({} : BaseEntity) sampleMissingResponse).1
        = { ({} : BaseEntity) with json := sampleMissingResponse } :=
  (from_json_missing_frame {} sampleMissingResponse rfl).1

/-- Witness for C4: a helper exception leaves the bound sample entity's id
and revision marker untouched. -/
theorem write_failure_preserves_witness :
    (writeStep sampleEntity (.error "boom")).1.id = sampleEntity.id ∧
    (writeStep sampleEntity (.error "boom")).1.lastrevid = sampleEntity.lastrevid :=
  (write_failure_preserves sampleEntity (.error "boom")
    (writeStep sampleEntity (.error "boom")).1 (writeStep sampleEntity (.error "boom")).2 rfl).1
    (.apiException "boom") rfl




theorem frMatches_reset (c : FastRunContainer) (bf : List (String × String))
    (ur ci : Bool) (ep : String) :
    frMatches { c with current_qid := "" } bf ur ci ep = frMatches c bf ur ci ep := rfl

theorem lastMatch_spec_some (store : List FastRunContainer) (bf : List (String × String))
    (ur ci : Bool) (ep : String) (c' : FastRunContainer)
    (h : lastMatch store bf ur ci ep = some c') :
    c' ∈ resetMatching store bf ur ci ep ∧ frMatches c' bf ur ci ep = true := by
  unfold lastMatch at h
  have hmem := List.mem_of_mem_getLast? h
  exact ⟨(List.mem_filter.mp hmem).1, (List.mem_filter.mp hmem).2⟩

theorem lastMatch_isSome (store : List FastRunContainer) (bf : List (String × String))
    (ur ci : Bool) (ep : String) (c : FastRunContainer)
    (hc : c ∈ store) (hpc : frMatches c bf ur ci ep = true) :
    ∃ c', lastMatch store bf ur ci ep = some c' := by
  have hmem : { c with current_qid := "" } ∈ resetMatching store bf ur ci ep := by
    have := List.mem_map_of_mem
      (fun x => if frMatches x bf ur ci ep then { x with current_qid := "" } else x) hc
    simpa [resetMatching, if_pos hpc] using this
  have hfil : { c with current_qid := "" } ∈
      (resetMatching store bf ur ci ep).filter (fun x => frMatches x bf ur ci ep) :=
    List.mem_filter.mpr ⟨hmem, by rw [frMatches_reset]; exact hpc⟩
  have hne := List.ne_nil_of_mem hfil
  obtain ⟨c', hc'⟩ := Option.isSome_iff_exists.mp (List.getLast?_isSome.mpr hne)
  exact ⟨c', hc'⟩

theorem lastMatch_nomatch (store : List FastRunContainer) (bf : List (String × String))
    (ur ci : Bool) (ep : String)
    (hnone : ∀ c ∈ store, frMatches c bf ur ci ep = false) :
    lastMatch store bf ur ci ep = none ∧ resetMatching store bf ur ci ep = store := by
  have hreset : resetMatching store bf ur ci ep = store := by
    conv_rhs => rw [← List.map_id store]
    exact List.map_congr_left (fun a ha => by rw [if_neg (by simp [hnone a ha])]; rfl)
  constructor
  · unfold lastMatch
    rw [hreset]
    have : store.filter (fun c => frMatches c bf ur ci ep) = [] :=
      List.filter_eq_nil_iff.mpr (fun a ha => by simp [hnone a ha])
    rw [this]
    rfl
  · exact hreset

theorem init_fastrun_preserves (store : List FastRunContainer) (e : BaseEntity)
    (base_filter : Option (List (String × String))) (ur ci : Bool) (ep : String) :
    (init_fastrun store e base_filter ur ci ep).2.claims = e.claims ∧
    (init_fastrun store e base_filter ur ci ep).2.id = e.id := by
  constructor <;> (unfold init_fastrun; dsimp only; split <;> rfl)

/-- C8 counterexample: the claim quantifies over every call, but an entity
that already holds a container keeps it even when it matches nothing in the
store — here the store knows only the `P31` filter, the call requests `P279`,
and the entity keeps the `P31` container while nothing is appended. -/
theorem init_fastrun_claim_counterexample :
    ¬ initFastrunClaimStatement [frP31Container] staleEntity (some [("P279", "")])
        false false "https://query.example.org/sparql" := by
  intro h
  have hne : ¬ (∃ c ∈ [frP31Container],
      frMatches c [("P279", "")] false false "https://query.example.org/sparql" = true) := by
    decide
  exact absurd (h.2 hne).1 (by decide)

/-- C8 (amended): on an entity whose fast-run container is not yet set — the
state every entity starts in and the only one the reuse loop is written for —
the claim holds: the entity's container is a matching store entry exactly
when one exists, otherwise a newly created container with the requested
parameters is appended; and neither the store update nor the chosen container
depends on the entity's id. -/
theorem init_fastrun_amended (store : List FastRunContainer) (e : BaseEntity)
    (base_filter : Option (List (String × String))) (use_refs case_insensitive : Bool)
    (endpoint : String) (h : e.fast_run_container = none) :
    initFastrunClaimStatement store e base_filter use_refs case_insensitive endpoint ∧
    (∀ j : JValue,
      (init_fastrun store { e with id := j } base_filter use_refs case_insensitive endpoint).1
        = (init_fastrun store e base_filter use_refs case_insensitive endpoint).1 ∧
      (init_fastrun store { e with id := j }
          base_filter use_refs case_insensitive endpoint).2.fast_run_container
        = (init_fastrun store e base_filter use_refs case_insensitive endpoint).2.fast_run_container) := by
  refine ⟨⟨?_, ?_⟩, ?_⟩
  · rintro ⟨c, hc, hpc⟩
    obtain ⟨c', hc'⟩ := lastMatch_isSome store (base_filter.getD []) use_refs case_insensitive
      endpoint c hc hpc
    obtain ⟨hcmem, hcp⟩ := lastMatch_spec_some store (base_filter.getD []) use_refs
      case_insensitive endpoint c' hc'
    refine ⟨c', ?_, ?_, hcp⟩
    · unfold init_fastrun
      dsimp only
      rw [hc']
    · unfold init_fastrun
      dsimp only
      rw [hc']
      exact hcmem
  · intro hne
    have hnone : ∀ c ∈ store,
        frMatches c (base_filter.getD []) use_refs case_insensitive endpoint = false := by
      intro c hc
      by_contra hb
      exact hne ⟨c, hc, by simpa using hb⟩
    obtain ⟨hlm, hreset⟩ := lastMatch_nomatch store (base_filter.getD []) use_refs
      case_insensitive endpoint hnone
    constructor
    · unfold init_fastrun
      dsimp only
      rw [hlm, h]
      dsimp only
      rw [hreset]
    · unfold init_fastrun
      dsimp only
      rw [hlm, h]
  · intro j
    unfold init_fastrun
    dsimp only
    cases hl : lastMatch store (base_filter.getD []) use_refs case_insensitive endpoint with
    | some c => exact ⟨rfl, rfl⟩
    | none =>
      dsimp only
      rw [h]
      exact ⟨rfl, rfl⟩

/-- Witness for C8 (amended) on a fresh entity and an empty store: the new
container is appended. -/
theorem init_fastrun_amended_witness :
    (init_fastrun [] ({} : BaseEntity) (some [("P31", "")]) false false "ep").1
        = [newFastRun [("P31", "")] false false "ep"] ∧
    (init_fastrun [] ({} : BaseEntity)
        (some [("P31", "")]) false false "ep").2.fast_run_container
        = some (newFastRun [("P31", "")] false false "ep") := by
  have h := (init_fastrun_amended [] ({} : BaseEntity) (some [("P31", "")])
    false false "ep" rfl).1
  unfold initFastrunClaimStatement at h
  exact (h.2 (by decide))

/-- C9: `write_required` hands the fast-run container exactly the entity's
claims whose mainsnak property number is a key of the base filter, together
with the entity's id. -/
theorem write_required_args_spec (store : List FastRunContainer) (e : BaseEntity)
    (base_filter : Option (List (String × String))) (use_refs case_insensitive : Bool)
    (endpoint : String) :
    (∀ c, c ∈ (write_required store e base_filter use_refs case_insensitive endpoint).2.1 ↔
        c ∈ e.claims ∧
          c.mainsnak.property_number ∈ (base_filter.getD []).map Prod.fst) ∧
    (write_required store e base_filter use_refs case_insensitive endpoint).2.2 = e.id := by
  have hpres := init_fastrun_preserves store e base_filter use_refs case_insensitive endpoint
  unfold write_required
  dsimp only
  constructor
  · intro c
    rw [List.mem_filter, hpres.1]
    constructor
    · rintro ⟨h1, h2⟩
      exact ⟨h1, List.elem_iff.mp h2⟩
    · rintro ⟨h1, h2⟩
      exact ⟨h1, List.elem_iff.mpr h2⟩
  · exact hpres.2

/-- Witness for C9: the sample entity's single `P31` claim is passed when the
filter lists `P31`, together with the entity id. -/
theorem write_required_args_witness :
    sampleClaimQ5 ∈
      (write_required [] sampleEntity (some [("P31", "x")]) false false "ep").2.1 ∧
    (write_required [] sampleEntity (some [("P31", "x")]) false false "ep").2.2
      = sampleEntity.id :=
  ⟨((write_required_args_spec [] sampleEntity (some [("P31", "x")]) false false "ep").1
      sampleClaimQ5).mpr ⟨by decide, by decide⟩,
   (write_required_args_spec [] sampleEntity (some [("P31", "x")]) false false "ep").2⟩

end WBI
